import Mathlib

/-!
Shallow embedding of the external-idp-app identity gateway.

The repository is an Express/TypeScript gateway in front of AWS Cognito.
We embed the hard core as pure Lean functions:

* the OAuth/OIDC session flow (`OAuthController` in the source:
  `login`, `callback`, `logout`, `home`, `profile`) over an explicit
  `OAuthSession` state, with the external provider's responses (token
  exchange, userinfo fetch, session-store destroy result) passed in as
  explicit arguments;
* the bearer-token verification path (`AuthMiddleware.authenticate`,
  `AuthMiddleware.extractToken`, `AuthMiddleware.initializePems`), with the
  cryptographic signature check abstracted as a boolean oracle (the repo
  explicitly delegates JWT crypto to the `jsonwebtoken` library);
* the input validators (`signUpValidator` username/password rules) with the
  password regular expression translated character-class by character-class;
* the provider-error to HTTP-status translation in `AuthController`.

JavaScript truthiness of optional strings (`!x` is true for `undefined`
and for `""`) is modelled by `jsFalsyStr`.
-/

deriving instance DecidableEq for Except

/-- JS truthiness test used by the source on optional strings:
`!x` holds when `x` is `undefined`/`null` or the empty string. -/
def jsFalsyStr : Option String → Bool
  | none => true
  | some s => s = ""

/-! ## OAuth session data model (`OAuthSession` interface, part_004) -/

/-- Userinfo claims document returned by the provider's userinfo endpoint.
The gateway treats it opaquely (`userInfo: any`), so we model it as an
opaque string payload. -/
abbrev UserInfo := String

/-- `OAuthSession` from the source: every field optional, absent by
default (a fresh Express session has none of them). -/
structure OAuthSession where
  nonce : Option String := none
  state : Option String := none
  userInfo : Option UserInfo := none
  accessToken : Option String := none
  idToken : Option String := none
  refreshToken : Option String := none
deriving DecidableEq, Repr

/-- `req.session.oauth` may itself be absent, hence `Option OAuthSession`. -/
abbrev Session := Option OAuthSession

def sessNonce (sess : Session) : Option String := sess.bind OAuthSession.nonce

def sessState (sess : Session) : Option String := sess.bind OAuthSession.state

def sessUserInfo (sess : Session) : Option UserInfo :=
  sess.bind OAuthSession.userInfo

/-- `!!req.session.oauth?.userInfo` — the source's notion of an
authenticated browser session (`home`, `profile`). -/
def isAuthenticated (sess : Session) : Bool := (sessUserInfo sess).isSome

/-! ## OIDC callback flow (`OAuthController.callback`, `OIDCService.callback`) -/

/-- Callback query parameters extracted by `client.callbackParams(req)`. -/
structure CallbackParams where
  state : Option String := none
  code : Option String := none
deriving DecidableEq, Repr

/-- Token set returned by the provider's token endpoint.  `idTokenNonce` is
the `nonce` claim embedded in the `id_token`. -/
structure TokenSet where
  access_token : String
  id_token : String
  refresh_token : String
  idTokenNonce : String
deriving DecidableEq, Repr

/-- Errors thrown on the callback path.  The controller catches any of them
and renders the error view; the constructor records which integrity failure
occurred (spec taxonomy: `SessionStateMissing`, `CallbackValidationFailed`). -/
inductive CbError where
  | clientNotInitialized
  | sessionStateMissing
  | callbackValidationFailed
  | upstreamError
  | userinfoFetchFailed
deriving DecidableEq, Repr

/-- External calls performed during callback handling. -/
inductive CbStep where
  | tokenExchange
  | userinfoFetch
deriving DecidableEq, Repr

/-- Modelled from the spec: the `openid-client` library's
`client.callback(redirectUri, params, \x7b nonce, state \x7d)` (called by
`OIDCService.callback`, not part of this repository) validates that the
returned `state` matches the expected one exactly, then exchanges the
authorization code at the token endpoint, then validates that the ID
token's embedded nonce matches the expected one; any mismatch throws.
The token-endpoint response is the explicit `exchange` argument; the
returned list records which external calls were made. -/
def clientCallback (params : CallbackParams) (exchange : Except Unit TokenSet)
    (state nonce : String) : Except CbError TokenSet × List CbStep :=
  if params.state ≠ some state then
    (Except.error CbError.callbackValidationFailed, [])
  else
    match exchange with
    | Except.error _ => (Except.error CbError.upstreamError, [CbStep.tokenExchange])
    | Except.ok ts =>
      if ts.idTokenNonce ≠ nonce then
        (Except.error CbError.callbackValidationFailed, [CbStep.tokenExchange])
      else
        (Except.ok ts, [CbStep.tokenExchange])

/-- Result of `OAuthController.callback`: the session after the request,
the HTTP outcome (`Except.ok ()` is the redirect to `/oauth`; any
`Except.error` is the rendered error page), and the external calls made. -/
structure CbResult where
  session : Session
  outcome : Except CbError Unit
  steps : List CbStep
deriving DecidableEq, Repr

/-- `OAuthController.callback`.  Follows the source line by line:
`getClient()` throws when the OIDC client is not initialized; then the
session's `nonce`/`state` are required to be truthy (`Session state
missing`); then `OIDCService.callback` (the `clientCallback` contract
above) runs; then `getUserInfo` runs with the new access token; on
success the session's `oauth` object is rebuilt by spreading the old one
and adding `userInfo` and the three tokens.  Every thrown error leaves
the session untouched and renders the error view. -/
def callbackHandler (initialized : Bool) (sess : Session)
    (params : CallbackParams) (exchange : Except Unit TokenSet)
    (userinfo : Except Unit UserInfo) : CbResult :=
  if initialized = false then
    ⟨sess, Except.error CbError.clientNotInitialized, []⟩
  else if jsFalsyStr (sessNonce sess) || jsFalsyStr (sessState sess) then
    ⟨sess, Except.error CbError.sessionStateMissing, []⟩
  else
    match clientCallback params exchange ((sessState sess).getD "")
        ((sessNonce sess).getD "") with
    | (Except.error e, steps) => ⟨sess, Except.error e, steps⟩
    | (Except.ok ts, steps) =>
      match userinfo with
      | Except.error _ =>
        ⟨sess, Except.error CbError.userinfoFetchFailed,
          steps ++ [CbStep.userinfoFetch]⟩
      | Except.ok ui =>
        ⟨some { sess.getD {} with
            userInfo := some ui,
            accessToken := some ts.access_token,
            idToken := some ts.id_token,
            refreshToken := some ts.refresh_token },
          Except.ok (), steps ++ [CbStep.userinfoFetch]⟩

/-! ## Login, logout, home, profile (`OAuthController`) -/

/-- Result of `OAuthController.login`: the session is replaced with
exactly `\x7b nonce, state \x7d` before the authorization URL is built, so the
replacement happens on the error path too (`getAuthorizationUrl` throws
when the client is not initialized). -/
structure LoginResult where
  session : Session
  outcome : Except Unit String
deriving DecidableEq, Repr

/-- `OAuthController.login`: fresh `nonce` and `state` (the
`generators.nonce()` / `generators.state()` outputs are the explicit
`freshNonce` / `freshState` arguments), assign
`req.session.oauth = \x7b nonce, state \x7d`, then redirect to the authorization
URL (which embeds the state and nonce), or render the error view when
the OIDC client is not initialized. -/
def loginHandler (initialized : Bool) (_sess : Session)
    (freshNonce freshState : String) : LoginResult :=
  { session := some { nonce := some freshNonce, state := some freshState },
    outcome :=
      if initialized then
        Except.ok ("authorize?state=" ++ freshState ++ "&nonce=" ++ freshNonce)
      else
        Except.error () }

/-- Observable actions of `OAuthController.logout`, in order. -/
inductive LogoutAction where
  | destroySession
  | logDestroyError
  | redirectToProviderLogout
deriving DecidableEq, Repr

/-- Result of `OAuthController.logout`. -/
structure LogoutResult where
  session : Session
  actions : List LogoutAction
deriving DecidableEq, Repr

/-- `OAuthController.logout`.  Modelled from the spec: the
`express-session` library's `req.session.destroy(cb)` (not part of this
repository) unsets the request's session before asking the session store
to delete the persisted copy, and reports a store failure through `cb`.
The controller logs a destroy error and issues the redirect to the
provider's logout endpoint unconditionally; `destroyErr` is the store's
failure flag. -/
def logoutHandler (_sess : Session) (destroyErr : Bool) : LogoutResult :=
  { session := none,
    actions := [LogoutAction.destroySession]
      ++ (if destroyErr then [LogoutAction.logDestroyError] else [])
      ++ [LogoutAction.redirectToProviderLogout] }

/-- Views rendered by the read-only handlers. -/
inductive View where
  | homeView (authenticated : Bool)
  | profileView
  | loginRedirect
deriving DecidableEq, Repr

/-- `OAuthController.home`: renders the home view keyed off
`!!req.session.oauth?.userInfo`; does not write the session. -/
def homeHandler (sess : Session) : Session × View :=
  (sess, View.homeView (isAuthenticated sess))

/-- `OAuthController.profile`: redirects to login when no `userInfo` is
stored, else renders the profile view; does not write the session. -/
def profileHandler (sess : Session) : Session × View :=
  if (sessUserInfo sess).isSome then (sess, View.profileView)
  else (sess, View.loginRedirect)

/-! ## Bearer-token verification (`AuthMiddleware`, part_005) -/

/-- Decoded JWT header; the source only reads `kid`, which a header may
lack. -/
structure JwtHeader where
  kid : Option String := none
deriving DecidableEq, Repr

/-- `DecodedToken` from the source: the claims the middleware exposes.
`cognitoUsername` stands for the `cognito:username` claim. -/
structure DecodedToken where
  sub : String
  email : String := ""
  cognitoUsername : String := ""
  exp : Nat
  iat : Nat := 0
deriving DecidableEq, Repr

/-- A structurally decoded JWT: header plus payload.  `jwt.decode(token,
\x7b complete: true \x7d)` yields this shape when it succeeds. -/
structure Jwt where
  header : JwtHeader
  payload : DecodedToken
deriving DecidableEq, Repr

/-- JS `String.prototype.split(' ')` on the character list: cut at every
single space, keeping empty pieces (`"a  b"` gives three pieces, `""`
gives one empty piece). -/
def splitSpaces : List Char → List (List Char)
  | [] => [[]]
  | ' ' :: rest => [] :: splitSpaces rest
  | c :: rest =>
    match splitSpaces rest with
    | [] => [[c]]
    | w :: ws => (c :: w) :: ws

/-- JS `h.split(' ')` as a `String` operation. -/
def jsSplitSpace (h : String) : List String :=
  (splitSpaces h.toList).map (fun l => String.mk l)

/-- `AuthMiddleware.extractToken`: read the `Authorization` header, split
on single spaces (JS `split(' ')` keeps empty parts), and require exactly
two parts with the first equal to `Bearer`; otherwise `none`.  Absence is
not an error. -/
def extractToken (authHeader : Option String) : Option String :=
  match authHeader with
  | none => none
  | some h =>
    let parts := jsSplitSpace h
    if parts.length ≠ 2 || parts.getD 0 "" ≠ "Bearer" then none
    else parts[1]?

/-- Outcome of `AuthMiddleware.authenticate`: the three 401 branches keep
the source's response bodies apart; `ok` is the source's
`req.user = decoded; req.accessToken = token; next()`. -/
inductive AuthOutcome where
  | noToken
  | invalidToken
  | verificationFailed
  | ok (user : DecodedToken) (accessToken : String)
deriving DecidableEq, Repr

/-- Whether the middleware let the request through with a verified
identity. -/
def AuthOutcome.isOk : AuthOutcome → Bool
  | AuthOutcome.ok _ _ => true
  | _ => false

/-- The subject claim of the verified identity, when there is one. -/
def AuthOutcome.subject : AuthOutcome → Option String
  | AuthOutcome.ok u _ => some u.sub
  | _ => none

/-- The key cache `this.pems`: a finite map from `kid` to PEM string. -/
abbrev PemMap := List (String × String)

def lookupPem (pems : PemMap) (kid : String) : Option String :=
  (pems.find? (fun p => p.1 = kid)).map Prod.snd

/-- `AuthMiddleware.authenticate`.  Cryptography is delegated to the
`jsonwebtoken` library, so two of its pieces are explicit arguments:
`decode` is `jwt.decode(·, \x7b complete: true \x7d)` (returns `none` for a raw
string that is not a structurally valid JWT, covering the source's
`!decodedToken || typeof decodedToken === 'string'` test), and
`sigValid pem raw` is the signature check `jwt.verify` performs with the
given PEM.  `jwt.verify` reports an error when the signature fails or
when the token is expired (`now ≥ exp`); both land in the source's
`Token verification failed` branch.  The `!kid || !this.pems[kid]` and
`!token` truthiness tests are modelled by `jsFalsyStr`. -/
def authenticate (decode : String → Option Jwt) (sigValid : String → String → Bool)
    (now : Nat) (pems : PemMap) (authHeader : Option String) : AuthOutcome :=
  let token := extractToken authHeader
  if jsFalsyStr token then AuthOutcome.noToken
  else
    let raw := token.getD ""
    match decode raw with
    | none => AuthOutcome.invalidToken
    | some dt =>
      if jsFalsyStr dt.header.kid then AuthOutcome.invalidToken
      else
        let pem := lookupPem pems (dt.header.kid.getD "")
        if jsFalsyStr pem then AuthOutcome.invalidToken
        else if sigValid (pem.getD "") raw = false then AuthOutcome.verificationFailed
        else if dt.payload.exp ≤ now then AuthOutcome.verificationFailed
        else AuthOutcome.ok dt.payload raw

/-- A JWKS entry as the source declares it. -/
structure JWK where
  alg : String := ""
  e : String
  kid : String
  kty : String
  n : String
  use : String := ""
deriving DecidableEq, Repr

/-- `this.pems[jwk.kid] = pem`: insert-or-replace into the key map. -/
def upsertPem (pems : PemMap) (kid pem : String) : PemMap :=
  if (pems.find? (fun p => p.1 = kid)).isSome then
    pems.map (fun p => if p.1 = kid then (kid, pem) else p)
  else
    pems ++ [(kid, pem)]

/-- `AuthMiddleware.initializePems`: fetch the JWKS document (its result
is the explicit `fetched` argument), convert every entry with
`jwkToPem` (external library, the explicit `toPem` argument) and store it
under its `kid`.  A fetch failure is caught and logged — the returned
flag — and leaves the key map as it was (empty on the first, startup-time
load). -/
def initializePems (toPem : JWK → String) (pems : PemMap)
    (fetched : Except Unit (List JWK)) : PemMap × Bool :=
  match fetched with
  | Except.error _ => (pems, true)
  | Except.ok jwks =>
    (jwks.foldl (fun m jwk => upsertPem m jwk.kid (toPem jwk)) pems, false)

/-! ## Input validation (`signUpValidator`, user.validators.ts) -/

/-- `validator.js` `isAlphanumeric` with the default locale:
`/^[0-9A-Z]+$/i`. -/
def isAlphanumericStr (s : String) : Bool :=
  s.toList ≠ [] && s.toList.all Char.isAlphanum

/-- `isLength(\x7b min, max \x7d)` of `validator.js` counts code points, which
for Lean strings is `String.length`. -/
def isLengthBetween (s : String) (lo hi : Nat) : Bool :=
  lo ≤ s.length && s.length ≤ hi

/-- `body('username').isLength(\x7b min: 3, max: 20 \x7d).isAlphanumeric()`:
both links of the chain must accept. -/
def usernameValid (s : String) : Bool :=
  isLengthBetween s 3 20 && isAlphanumericStr s

/-- A JS regex line terminator, which `.` does not match. -/
def isJsLineTerm (c : Char) : Bool :=
  c = '\n' || c = '\r' || c.val = 0x2028 || c.val = 0x2029

/-- The characters of the `[@$!%*?&]` class in the password pattern. -/
def passwordSpecial (c : Char) : Bool :=
  c = '@' || c = '$' || c = '!' || c = '%' || c = '*' || c = '?' || c = '&'

/-- The span of the string a `.*` starting at position 0 can cover: the
characters before the first line terminator.  A lookahead `(?=.*[C])`
succeeds exactly when a character of class `C` occurs in this span. -/
def dotStarSpan (s : String) : List Char :=
  s.toList.takeWhile (fun c => !(isJsLineTerm c))

/-- The password pattern
`/^(?=.*[a-z])(?=.*[A-Z])(?=.*\d)(?=.*[@$!%*?&])[A-Za-z\d@$!%*?&]/`:
four lookaheads demanding a lowercase letter, an uppercase letter, a
digit and a special character, then one character of the combined class
at position 0 (the pattern is unanchored at the end and consumes a
single character). -/
def passwordPatternMatch (s : String) : Bool :=
  (dotStarSpan s).any Char.isLower &&
  (dotStarSpan s).any Char.isUpper &&
  (dotStarSpan s).any Char.isDigit &&
  (dotStarSpan s).any passwordSpecial &&
  (match s.toList with
   | [] => false
   | c :: _ => c.isAlpha || c.isDigit || passwordSpecial c)

/-- `body('password').isLength(\x7b min: 8 \x7d).matches(...)`. -/
def passwordValid (s : String) : Bool :=
  8 ≤ s.length && passwordPatternMatch s

/-! ## Provider-error translation (`AuthController`, auth.controller.ts) -/

/-- The Cognito SDK error classes the controllers inspect, distinguished
by the error object's `name` string. -/
inductive CognitoErrorName where
  | UsernameExistsException
  | InvalidPasswordException
  | NotAuthorizedException
  | UserNotConfirmedException
  | UserNotFoundException
  | CodeMismatchException
  | ExpiredCodeException
  | otherError (name : String)
deriving DecidableEq, Repr

/-- The token triple Cognito returns on a successful sign-in. -/
structure Tokens where
  accessToken : String
  idToken : String
  refreshToken : String
deriving DecidableEq, Repr

/-- `SignInResponse` from the source, with the user part kept opaque. -/
structure SignInResponse where
  username : String
  tokens : Tokens
deriving DecidableEq, Repr

/-- `CognitoService.signUp` result shape. -/
structure SignUpResult where
  userId : String
  userConfirmed : Bool
deriving DecidableEq, Repr

/-- An Express JSON response from the auth controller: a success body
`\x7b message, data \x7d`, an error body `\x7b error \x7d` with its HTTP status, or
delegation to the generic error handler (`next(error)`). -/
inductive ApiResponse (α : Type) where
  | okJson (status : Nat) (message : String) (data : α)
  | errJson (status : Nat) (error : String)
  | nextError (e : CognitoErrorName)
deriving DecidableEq, Repr

/-- The tokens an auth-controller response carries, if any. -/
def responseTokens : ApiResponse SignInResponse → Option Tokens
  | ApiResponse.okJson _ _ r => some r.tokens
  | _ => none

/-- `AuthController.signUp` response mapping, from the result of
`CognitoService.signUp`. -/
def signUpHandler (result : Except CognitoErrorName SignUpResult) :
    ApiResponse SignUpResult :=
  match result with
  | Except.ok r => ApiResponse.okJson 201 "User created successfully" r
  | Except.error CognitoErrorName.UsernameExistsException =>
    ApiResponse.errJson 409 "Username already exists"
  | Except.error CognitoErrorName.InvalidPasswordException =>
    ApiResponse.errJson 400 "Invalid password format"
  | Except.error e => ApiResponse.nextError e

/-- `AuthController.signIn` response mapping, from the result of
`CognitoService.signIn`. -/
def signInHandler (result : Except CognitoErrorName SignInResponse) :
    ApiResponse SignInResponse :=
  match result with
  | Except.ok r => ApiResponse.okJson 200 "Sign in successful" r
  | Except.error CognitoErrorName.NotAuthorizedException =>
    ApiResponse.errJson 401 "Invalid username or password"
  | Except.error CognitoErrorName.UserNotConfirmedException =>
    ApiResponse.errJson 403 "User email not verified"
  | Except.error e => ApiResponse.nextError e

/-- `AuthController.forgotPassword` response mapping. -/
def forgotPasswordHandler (result : Except CognitoErrorName Unit) :
    ApiResponse Unit :=
  match result with
  | Except.ok _ => ApiResponse.okJson 200 "Password reset code sent successfully" ()
  | Except.error CognitoErrorName.UserNotFoundException =>
    ApiResponse.errJson 404 "User not found"
  | Except.error e => ApiResponse.nextError e

/-! ## Helper lemmas -/

/-- If no element of a list satisfies `r`, no element of any `takeWhile`
of it does either. -/
theorem any_takeWhile_eq_false_of_all_not {l : List Char} {q r : Char → Bool}
    (h : l.all (fun c => !(r c)) = true) : (l.takeWhile q).any r = false := by
  induction l with
  | nil => rfl
  | cons a t ih =>
    simp only [List.all_cons, Bool.and_eq_true, Bool.not_eq_true'] at h
    simp only [List.takeWhile]
    cases hq : q a
    · rfl
    · simp only [List.any_cons, h.1, Bool.false_or]
      exact ih (by simpa using h.2)

/-! ## Claim theorems -/

/-- C10: `login` replaces the session's entire `oauth` object with
exactly the fresh `\x7b nonce, state \x7d`: for every prior session, including
an Authenticated one, no previously stored `userInfo`, `accessToken`,
`idToken` or `refreshToken` survives, so Authenticated → PendingCallback
is a reachable transition. -/
theorem login_replaces_session_wholesale (initialized : Bool) (sess : Session)
    (n s : String) :
    (loginHandler initialized sess n s).session =
      some { nonce := some n, state := some s, userInfo := none,
             accessToken := none, idToken := none, refreshToken := none } := rfl

/-- C8: the gateway's fixed translation table from provider error classes
to HTTP statuses: username taken → 409, not authorized → 401, user not
confirmed → 403, not found → 404; sign-in with a wrong password
(`NotAuthorizedException`) yields 401 with body
`\x7b error: Invalid username or password \x7d` and carries no tokens. -/
theorem provider_error_translation_table :
    signUpHandler (Except.error CognitoErrorName.UsernameExistsException) =
      ApiResponse.errJson 409 "Username already exists" ∧
    signInHandler (Except.error CognitoErrorName.NotAuthorizedException) =
      ApiResponse.errJson 401 "Invalid username or password" ∧
    signInHandler (Except.error CognitoErrorName.UserNotConfirmedException) =
      ApiResponse.errJson 403 "User email not verified" ∧
    forgotPasswordHandler (Except.error CognitoErrorName.UserNotFoundException) =
      ApiResponse.errJson 404 "User not found" ∧
    responseTokens
      (signInHandler (Except.error CognitoErrorName.NotAuthorizedException)) = none :=
  ⟨rfl, rfl, rfl, rfl, rfl⟩

/-- C4: `logout` always clears the session's authentication state — the
resulting session is gone — even when the session-store destroy errors;
the destruction precedes the redirect to the provider's logout endpoint,
a destroy failure is logged, and the redirect is issued regardless. -/
theorem logout_clears_session_and_redirects (sess : Session) (destroyErr : Bool) :
    (logoutHandler sess destroyErr).session = none ∧
    (logoutHandler sess destroyErr).actions.indexOf LogoutAction.destroySession <
      (logoutHandler sess destroyErr).actions.indexOf
        LogoutAction.redirectToProviderLogout ∧
    LogoutAction.redirectToProviderLogout ∈ (logoutHandler sess destroyErr).actions ∧
    (destroyErr = true →
      LogoutAction.logDestroyError ∈ (logoutHandler sess destroyErr).actions) := by
  cases destroyErr <;> simp [logoutHandler, List.indexOf] <;> decide

/-- Concrete run of `logout_clears_session_and_redirects` with a failing
store destroy. -/
theorem logout_clears_session_and_redirects_witness :
    (logoutHandler (some { userInfo := some "ui" }) true).session = none ∧
    LogoutAction.logDestroyError ∈
      (logoutHandler (some { userInfo := some "ui" }) true).actions :=
  ⟨(logout_clears_session_and_redirects (some { userInfo := some "ui" }) true).1,
   (logout_clears_session_and_redirects (some { userInfo := some "ui" }) true).2.2.2 rfl⟩

/-- C3: when the session's `nonce` and `state` were never set (no prior
`initiate`), `completeCallback` fails with the session-state-missing
error before any token-endpoint exchange is attempted, leaving the
session unchanged. -/
theorem completeCallback_without_initiate_fails (sess : Session)
    (params : CallbackParams) (exchange : Except Unit TokenSet)
    (userinfo : Except Unit UserInfo)
    (hn : sessNonce sess = none) (hs : sessState sess = none) :
    (callbackHandler true sess params exchange userinfo).outcome =
        Except.error CbError.sessionStateMissing ∧
    CbStep.tokenExchange ∉ (callbackHandler true sess params exchange userinfo).steps ∧
    (callbackHandler true sess params exchange userinfo).session = sess := by
  simp [callbackHandler, hn, hs, jsFalsyStr]

/-- Concrete run of `completeCallback_without_initiate_fails` on a fresh
session. -/
theorem completeCallback_without_initiate_fails_witness :
    (callbackHandler true none { state := some "s0", code := some "c0" }
        (Except.error ()) (Except.error ())).outcome =
      Except.error CbError.sessionStateMissing :=
  (completeCallback_without_initiate_fails none
    { state := some "s0", code := some "c0" } (Except.error ()) (Except.error ())
    rfl rfl).1

/-- C6: `extractBearer` returns `none` for an absent header and for any
header that does not split into exactly two space-separated parts with
the first equal to `Bearer`; otherwise it returns the token part.  The
result is an `Option`, not an error. -/
theorem extractBearer_spec :
    extractToken none = none ∧
    (∀ h t, jsSplitSpace h = ["Bearer", t] → extractToken (some h) = some t) ∧
    (∀ h, (∀ t, jsSplitSpace h ≠ ["Bearer", t]) → extractToken (some h) = none) := by
  refine ⟨rfl, ?_, ?_⟩
  · intro h t hsplit
    simp [extractToken, hsplit]
  · intro h hne
    simp only [extractToken]
    rcases hp : jsSplitSpace h with _ | ⟨a, _ | ⟨b, rest⟩⟩
    · simp
    · simp
    · rcases rest with _ | ⟨c, rest⟩
      · by_cases ha : a = "Bearer"
        · exact absurd (ha ▸ hp) (hne b)
        · simp [ha]
      · simp

/-- C1: for a session in PendingCallback (fresh nonce and state from
`initiate`, no user info), a callback whose `state` parameter differs
from the stored state, or whose exchanged ID token embeds a nonce
different from the stored nonce, fails with `CallbackValidationFailed`;
the session is left exactly as it was, so it does not transition to
Authenticated and no user info or tokens are stored. -/
theorem callback_mismatch_fails_closed (n s : String) (params : CallbackParams)
    (exchange : Except Unit TokenSet) (userinfo : Except Unit UserInfo)
    (hn : n ≠ "") (hs : s ≠ "")
    (hmis : params.state ≠ some s ∨
      ∃ ts, exchange = Except.ok ts ∧ ts.idTokenNonce ≠ n) :
    (callbackHandler true (some { nonce := some n, state := some s }) params
        exchange userinfo).outcome =
      Except.error CbError.callbackValidationFailed ∧
    (callbackHandler true (some { nonce := some n, state := some s }) params
        exchange userinfo).session = some { nonce := some n, state := some s } ∧
    isAuthenticated (callbackHandler true (some { nonce := some n, state := some s })
        params exchange userinfo).session = false := by
  have hcc : (clientCallback params exchange s n).1 =
      Except.error CbError.callbackValidationFailed := by
    rcases hmis with hst | ⟨ts, hex, hnn⟩
    · simp [clientCallback, hst]
    · by_cases hst : params.state = some s
      · simp [clientCallback, hst, hex, hnn]
      · simp [clientCallback, hst]
  rcases hp : clientCallback params exchange s n with ⟨res, steps⟩
  rw [hp] at hcc
  simp only at hcc
  subst hcc
  simp [callbackHandler, sessNonce, sessState, sessUserInfo, isAuthenticated,
    jsFalsyStr, hn, hs, hp]

/-- Concrete run of `callback_mismatch_fails_closed`: the provider
returns a state that differs from the stored one. -/
theorem callback_mismatch_fails_closed_witness :
    (callbackHandler true (some { nonce := some "n1", state := some "s1" })
        { state := some "attacker", code := some "c1" } (Except.error ())
        (Except.error ())).outcome =
      Except.error CbError.callbackValidationFailed :=
  (callback_mismatch_fails_closed "n1" "s1"
    { state := some "attacker", code := some "c1" } (Except.error ())
    (Except.error ()) (by decide) (by decide) (Or.inl (by decide))).1

/-- C5: a failed first JWKS load is logged, not fatal, and leaves the key
set empty; with an empty key set every bearer-token verification fails
(the `kid` lookup cannot succeed), so the verifier fails closed and never
produces a verified identity. -/
theorem empty_keyset_fails_closed :
    (∀ toPem : JWK → String,
      initializePems toPem [] (Except.error ()) = ([], true)) ∧
    (∀ (decode : String → Option Jwt) (sigValid : String → String → Bool)
        (now : Nat) (authHeader : Option String),
      (authenticate decode sigValid now [] authHeader).isOk = false) := by
  refine ⟨fun _ => rfl, ?_⟩
  intro decode sigValid now authHeader
  simp only [authenticate]
  split
  · rfl
  · split
    · rfl
    · split
      · rfl
      · simp [lookupPem, jsFalsyStr, AuthOutcome.isOk]

/-- C2: for a bearer token that decodes to `dt`: a missing/unknown `kid`
fails with the invalid-token error; a known `kid` whose key rejects the
signature, or an expired token, fails with the verification-failed
error; a validly signed, unexpired token succeeds with a verified
identity carrying the token's subject claim. -/
theorem verify_token_spec (decode : String → Option Jwt)
    (sigValid : String → String → Bool) (now : Nat) (pems : PemMap)
    (authHeader : Option String) (tok : String) (dt : Jwt)
    (hextract : extractToken authHeader = some tok) (htok : tok ≠ "")
    (hdecode : decode tok = some dt) :
    ((jsFalsyStr dt.header.kid = true ∨
        lookupPem pems (dt.header.kid.getD "") = none) →
      authenticate decode sigValid now pems authHeader =
        AuthOutcome.invalidToken) ∧
    (∀ k pem, dt.header.kid = some k → k ≠ "" → lookupPem pems k = some pem →
      pem ≠ "" → (sigValid pem tok = false ∨ dt.payload.exp ≤ now) →
      authenticate decode sigValid now pems authHeader =
        AuthOutcome.verificationFailed) ∧
    (∀ k pem, dt.header.kid = some k → k ≠ "" → lookupPem pems k = some pem →
      pem ≠ "" → sigValid pem tok = true → now < dt.payload.exp →
      authenticate decode sigValid now pems authHeader =
        AuthOutcome.ok dt.payload tok ∧
      (authenticate decode sigValid now pems authHeader).subject =
        some dt.payload.sub) := by
  have hbase : authenticate decode sigValid now pems authHeader =
      (if jsFalsyStr dt.header.kid then AuthOutcome.invalidToken
       else
        let pem := lookupPem pems (dt.header.kid.getD "")
        if jsFalsyStr pem then AuthOutcome.invalidToken
        else if sigValid (pem.getD "") tok = false then
          AuthOutcome.verificationFailed
        else if dt.payload.exp ≤ now then AuthOutcome.verificationFailed
        else AuthOutcome.ok dt.payload tok) := by
    simp [authenticate, hextract, jsFalsyStr, htok, hdecode]
  refine ⟨?_, ?_, ?_⟩
  · intro hcase
    rcases hcase with hkid | hlook
    · simp [hbase, hkid]
    · by_cases hkid : jsFalsyStr dt.header.kid
      · simp [hbase, hkid]
      · simp [hbase, hkid, hlook, jsFalsyStr]
  · intro k pem hk hkne hlook hpemne hfail
    have hkid : jsFalsyStr dt.header.kid = false := by simp [jsFalsyStr, hk, hkne]
    rcases hfail with hsig | hexp
    · simp [hbase, hkid, hk, hkne, hlook, jsFalsyStr, hpemne, hsig]
    · by_cases hsig : sigValid pem tok = false
      · simp [hbase, hkid, hk, hkne, hlook, jsFalsyStr, hpemne, hsig]
      · simp [hbase, hkid, hk, hkne, hlook, jsFalsyStr, hpemne, hsig, hexp]
  · intro k pem hk hkne hlook hpemne hsig hexp
    have hkid : jsFalsyStr dt.header.kid = false := by simp [jsFalsyStr, hk, hkne]
    have hok : authenticate decode sigValid now pems authHeader =
        AuthOutcome.ok dt.payload tok := by
      simp [hbase, hkid, hk, hkne, hlook, jsFalsyStr, hpemne, hsig,
        Nat.not_le.mpr hexp]
    exact ⟨hok, by rw [hok]; rfl⟩

/-- Concrete runs of `verify_token_spec`: the same decoded token against
an empty key set (unknown `kid`), against its key with a rejecting
signature oracle, expired, and validly signed and unexpired. -/
theorem verify_token_spec_witness :
    authenticate (fun _ => some ⟨⟨some "k1"⟩, { sub := "user-1", exp := 100 }⟩)
        (fun _ _ => true) 0 [] (some "Bearer tok") = AuthOutcome.invalidToken ∧
    authenticate (fun _ => some ⟨⟨some "k1"⟩, { sub := "user-1", exp := 100 }⟩)
        (fun _ _ => false) 0 [("k1", "PEM1")] (some "Bearer tok") =
      AuthOutcome.verificationFailed ∧
    authenticate (fun _ => some ⟨⟨some "k1"⟩, { sub := "user-1", exp := 100 }⟩)
        (fun _ _ => true) 100 [("k1", "PEM1")] (some "Bearer tok") =
      AuthOutcome.verificationFailed ∧
    authenticate (fun _ => some ⟨⟨some "k1"⟩, { sub := "user-1", exp := 100 }⟩)
        (fun _ _ => true) 0 [("k1", "PEM1")] (some "Bearer tok") =
      AuthOutcome.ok { sub := "user-1", exp := 100 } "tok" :=
  ⟨(verify_token_spec _ _ 0 [] (some "Bearer tok") "tok"
      ⟨⟨some "k1"⟩, { sub := "user-1", exp := 100 }⟩ (by decide) (by decide)
      rfl).1 (Or.inr rfl),
   (verify_token_spec _ _ 0 [("k1", "PEM1")] (some "Bearer tok") "tok"
      ⟨⟨some "k1"⟩, { sub := "user-1", exp := 100 }⟩ (by decide) (by decide)
      rfl).2.1 "k1" "PEM1" rfl (by decide) rfl (by decide) (Or.inl rfl),
   (verify_token_spec _ _ 100 [("k1", "PEM1")] (some "Bearer tok") "tok"
      ⟨⟨some "k1"⟩, { sub := "user-1", exp := 100 }⟩ (by decide) (by decide)
      rfl).2.1 "k1" "PEM1" rfl (by decide) rfl (by decide) (Or.inr (by decide)),
   ((verify_token_spec _ _ 0 [("k1", "PEM1")] (some "Bearer tok") "tok"
      ⟨⟨some "k1"⟩, { sub := "user-1", exp := 100 }⟩ (by decide) (by decide)
      rfl).2.2 "k1" "PEM1" rfl (by decide) rfl (by decide) rfl (by decide)).1⟩

/-- C7: signup validation accepts usernames of exactly 3 and exactly 20
alphanumeric characters and rejects any of 2 or 21 characters; it rejects
any password shorter than 8 characters and any password missing one of
the four character classes (lowercase, uppercase, digit, special). -/
theorem signup_validation_boundaries :
    (∀ s : String, s.length = 3 → s.toList.all Char.isAlphanum = true →
      usernameValid s = true) ∧
    (∀ s : String, s.length = 20 → s.toList.all Char.isAlphanum = true →
      usernameValid s = true) ∧
    (∀ s : String, s.length = 2 → usernameValid s = false) ∧
    (∀ s : String, s.length = 21 → usernameValid s = false) ∧
    (∀ p : String, p.length < 8 → passwordValid p = false) ∧
    (∀ p : String, p.toList.all (fun c => !(c.isLower)) = true →
      passwordValid p = false) ∧
    (∀ p : String, p.toList.all (fun c => !(c.isUpper)) = true →
      passwordValid p = false) ∧
    (∀ p : String, p.toList.all (fun c => !(c.isDigit)) = true →
      passwordValid p = false) ∧
    (∀ p : String, p.toList.all (fun c => !(passwordSpecial c)) = true →
      passwordValid p = false) := by
  refine ⟨?_, ?_, ?_, ?_, ?_, ?_, ?_, ?_, ?_⟩
  · intro s h hall
    have hlen : s.toList.length = 3 := h
    have hne : s.toList ≠ [] := by
      intro hEq; rw [hEq] at hlen; exact absurd hlen (by decide)
    simp [usernameValid, isLengthBetween, isAlphanumericStr, h]
    exact ⟨hne, by simpa using hall⟩
  · intro s h hall
    have hlen : s.toList.length = 20 := h
    have hne : s.toList ≠ [] := by
      intro hEq; rw [hEq] at hlen; exact absurd hlen (by decide)
    simp [usernameValid, isLengthBetween, isAlphanumericStr, h]
    exact ⟨hne, by simpa using hall⟩
  · intro s h
    simp [usernameValid, isLengthBetween, h]
  · intro s h
    simp [usernameValid, isLengthBetween, h]
  · intro p h
    have hnle : ¬ (8 ≤ p.length) := Nat.not_le.mpr h
    simp [passwordValid, hnle]
  · intro p hall
    have h6 : (dotStarSpan p).any Char.isLower = false :=
      any_takeWhile_eq_false_of_all_not hall
    simp [passwordValid, passwordPatternMatch, h6]
  · intro p hall
    have h7 : (dotStarSpan p).any Char.isUpper = false :=
      any_takeWhile_eq_false_of_all_not hall
    simp [passwordValid, passwordPatternMatch, h7]
  · intro p hall
    have h8 : (dotStarSpan p).any Char.isDigit = false :=
      any_takeWhile_eq_false_of_all_not hall
    simp [passwordValid, passwordPatternMatch, h8]
  · intro p hall
    have h9 : (dotStarSpan p).any passwordSpecial = false :=
      any_takeWhile_eq_false_of_all_not hall
    simp [passwordValid, passwordPatternMatch, h9]

/-- Concrete runs of `signup_validation_boundaries`: usernames of lengths
3, 20, 2, 21 and passwords that are short or miss one character class. -/
theorem signup_validation_boundaries_witness :
    usernameValid "abc" = true ∧
    usernameValid "aaaaaaaaaaaaaaaaaaaa" = true ∧
    usernameValid "ab" = false ∧
    usernameValid "aaaaaaaaaaaaaaaaaaaaa" = false ∧
    passwordValid "Aa1!" = false ∧
    passwordValid "AA11@@@@" = false ∧
    passwordValid "aa11@@@@" = false ∧
    passwordValid "aaAA@@@@" = false ∧
    passwordValid "aaAA1111" = false :=
  ⟨signup_validation_boundaries.1 "abc" (by decide) (by decide),
   signup_validation_boundaries.2.1 "aaaaaaaaaaaaaaaaaaaa" (by decide) (by decide),
   signup_validation_boundaries.2.2.1 "ab" (by decide),
   signup_validation_boundaries.2.2.2.1 "aaaaaaaaaaaaaaaaaaaaa" (by decide),
   signup_validation_boundaries.2.2.2.2.1 "Aa1!" (by decide),
   signup_validation_boundaries.2.2.2.2.2.1 "AA11@@@@" (by decide),
   signup_validation_boundaries.2.2.2.2.2.2.1 "aa11@@@@" (by decide),
   signup_validation_boundaries.2.2.2.2.2.2.2.1 "aaAA@@@@" (by decide),
   signup_validation_boundaries.2.2.2.2.2.2.2.2 "aaAA1111" (by decide)⟩

/-- C9: the anti-replay values are not consumed by authentication: the
`callback` handler always preserves the session's `nonce` and `state`
(on success they sit alongside the stored user info and tokens), a
successful callback leaves the session Authenticated, the read-only
handlers never write the session, `login` always leaves `nonce` and
`state` present, and only `logout` removes them (by destroying the
session). -/
theorem nonce_state_survive_operations :
    (∀ (initialized : Bool) (sess : Session) (params : CallbackParams)
        (exchange : Except Unit TokenSet) (userinfo : Except Unit UserInfo),
      sessNonce (callbackHandler initialized sess params exchange userinfo).session
          = sessNonce sess ∧
      sessState (callbackHandler initialized sess params exchange userinfo).session
          = sessState sess) ∧
    (∀ (sess : Session) (params : CallbackParams) (exchange : Except Unit TokenSet)
        (userinfo : Except Unit UserInfo),
      (callbackHandler true sess params exchange userinfo).outcome = Except.ok () →
      isAuthenticated (callbackHandler true sess params exchange userinfo).session
          = true) ∧
    (∀ sess : Session, (homeHandler sess).1 = sess ∧ (profileHandler sess).1 = sess) ∧
    (∀ (initialized : Bool) (sess : Session) (n s : String),
      sessNonce (loginHandler initialized sess n s).session = some n ∧
      sessState (loginHandler initialized sess n s).session = some s) ∧
    (∀ (sess : Session) (destroyErr : Bool),
      (logoutHandler sess destroyErr).session = none) := by
  refine ⟨?_, ?_, ?_, ?_, ?_⟩
  · intro initialized sess params exchange userinfo
    cases initialized
    · exact ⟨rfl, rfl⟩
    · rcases sess with _ | o
      · simp [callbackHandler, sessNonce, sessState, jsFalsyStr]
      · by_cases hc : (jsFalsyStr (sessNonce (some o)) ||
            jsFalsyStr (sessState (some o))) = true
        · simp [callbackHandler, hc]
        · rw [Bool.not_eq_true] at hc
          simp only [callbackHandler, hc, Bool.false_eq_true, if_false, if_neg,
            reduceIte]
          rcases hp : clientCallback params exchange ((sessState (some o)).getD "")
              ((sessNonce (some o)).getD "") with ⟨res, steps⟩
          rcases res with e | ts
          · exact ⟨rfl, rfl⟩
          · rcases userinfo with e | ui
            · exact ⟨rfl, rfl⟩
            · exact ⟨rfl, rfl⟩
  · intro sess params exchange userinfo hok
    rcases sess with _ | o
    · simp [callbackHandler, sessNonce, sessState, jsFalsyStr] at hok
    · by_cases hc : (jsFalsyStr (sessNonce (some o)) ||
          jsFalsyStr (sessState (some o))) = true
      · simp [callbackHandler, hc] at hok
      · rw [Bool.not_eq_true] at hc
        simp only [callbackHandler, hc, Bool.false_eq_true, if_false, if_neg,
          reduceIte] at hok ⊢
        rcases hp : clientCallback params exchange ((sessState (some o)).getD "")
            ((sessNonce (some o)).getD "") with ⟨res, steps⟩
        rw [hp] at hok
        rcases res with e | ts
        · simp at hok
        · rcases userinfo with e | ui
          · simp at hok
          · simp [isAuthenticated, sessUserInfo]
  · intro sess
    refine ⟨rfl, ?_⟩
    by_cases h : (sessUserInfo sess).isSome <;> simp [profileHandler, h]
  · intro initialized sess n s
    exact ⟨rfl, rfl⟩
  · intro sess destroyErr
    rfl

/-- Concrete run of `nonce_state_survive_operations`: a successful
callback from a pending session ends Authenticated with the initiated
nonce and state still stored. -/
theorem nonce_state_survive_operations_witness :
    isAuthenticated (callbackHandler true
        (some { nonce := some "n1", state := some "s1" })
        { state := some "s1", code := some "c1" }
        (Except.ok { access_token := "at", id_token := "it",
                     refresh_token := "rt", idTokenNonce := "n1" })
        (Except.ok "ui")).session = true ∧
    sessNonce (callbackHandler true
        (some { nonce := some "n1", state := some "s1" })
        { state := some "s1", code := some "c1" }
        (Except.ok { access_token := "at", id_token := "it",
                     refresh_token := "rt", idTokenNonce := "n1" })
        (Except.ok "ui")).session = some "n1" :=
  ⟨nonce_state_survive_operations.2.1
      (some { nonce := some "n1", state := some "s1" })
      { state := some "s1", code := some "c1" }
      (Except.ok { access_token := "at", id_token := "it",
                   refresh_token := "rt", idTokenNonce := "n1" })
      (Except.ok "ui") (by decide),
   Eq.trans
     ((nonce_state_survive_operations.1 true
        (some { nonce := some "n1", state := some "s1" })
        { state := some "s1", code := some "c1" }
        (Except.ok { access_token := "at", id_token := "it",
                     refresh_token := "rt", idTokenNonce := "n1" })
        (Except.ok "ui")).1)
     rfl⟩

/-- Concrete runs of `extractBearer_spec`: a well-formed header and a
malformed one. -/
theorem extractBearer_spec_witness :
    extractToken (some "Bearer abc.def.ghi") = some "abc.def.ghi" ∧
    extractToken (some "Basic abc") = none :=
  ⟨extractBearer_spec.2.1 "Bearer abc.def.ghi" "abc.def.ghi" (by decide),
   extractBearer_spec.2.2 "Basic abc"
     (by intro t hEq; rw [show jsSplitSpace "Basic abc" = ["Basic", "abc"] from by decide] at hEq;
         injection hEq with h1 _; exact absurd h1 (by decide))⟩
